import Mathlib

/-!
# ZhiQing UI dev-server configuration (`zhiqing_ui/vue.config.js`)

The file exports one static object with two behaviours:

* `devServer.client.overlay.runtimeErrors`, an arrow function deciding whether
  a runtime error is shown in the browser overlay;
* `devServer.proxy`, a table with one rule for the prefix `/api/v1`.

The arrow function is JavaScript code of the repository and is embedded
directly.  The proxy table is data; it is embedded as data, and the dev-server
that reads it is modelled separately (see the second half of the definitions).
-/

namespace ZhiQing

/-! ## JavaScript values -/

/-- The JavaScript values an error field can hold.  Numbers carry an integer
payload and objects an identity; the code below does no arithmetic and reads
no property of either, it only compares a value against string literals. -/
inductive JSValue where
  | undefined
  | null
  | boolean (b : Bool)
  | number (n : Int)
  | string (s : String)
  | object (ref : Nat)
  deriving DecidableEq, Repr

/-- ECMAScript `SameValueZero(x, y)`: values of different types are never the
same; strings are the same exactly when they are the same sequence of
characters. -/
def sameValueZero : JSValue → JSValue → Bool
  | .undefined, .undefined => true
  | .null, .null => true
  | .boolean a, .boolean b => a == b
  | .number a, .number b => a == b
  | .string a, .string b => a == b
  | .object a, .object b => a == b
  | _, _ => false

/-- ECMAScript `Array.prototype.includes(searchElement)` with the default
start index: scan the elements in order and answer `true` at the first one
that is `SameValueZero` to the searched value. -/
def includes : List JSValue → JSValue → Bool
  | [], _ => false
  | x :: xs, searchElement => if sameValueZero searchElement x then true else includes xs searchElement

/-- ECMAScript `ToBoolean`: the truthiness a caller sees when it branches on a
value. -/
def toBoolean : JSValue → Bool
  | .undefined => false
  | .null => false
  | .boolean b => b
  | .number n => n != 0
  | .string s => s != ""
  | .object _ => true

/-- An error object handed to the overlay callback.  `message` is the field
the callback reads; `name`, `stack` and `extra` stand for everything else an
error object carries. -/
structure JSError where
  message : JSValue
  name : JSValue
  stack : JSValue
  extra : List (String × JSValue)
  deriving DecidableEq, Repr

/-! ## The overlay filter -/

/-- The array literal bound to `const ignoreErrors` inside the callback
(lines 15-18); it is built afresh by every call. -/
def ignoreErrors : List JSValue :=
  [ JSValue.string "ResizeObserver loop limit exceeded",
    JSValue.string "ResizeObserver loop completed with undelivered notifications." ]

/-- The arrow function `devServer.client.overlay.runtimeErrors` (lines 14-22):

    (error) => {
      const ignoreErrors = [ ... ];
      if (ignoreErrors.includes(error.message)) {
        return false;
      }
    }

A call that does not take the `if` branch reaches the end of the body, and its
value is `undefined`. -/
def runtimeErrors (error : JSError) : JSValue :=
  if includes ignoreErrors error.message then
    JSValue.boolean false
  else
    JSValue.undefined

/-- The results of calling the callback on a sequence of errors, one after the
other.  The callback keeps no state between calls, so this is a plain map. -/
def runtimeErrorsCalls (errors : List JSError) : List JSValue :=
  errors.map runtimeErrors

/-! ## The proxy table -/

/-- One entry of `devServer.proxy`: the property key (the path prefix the rule
is registered under) and the option object bound to it.  `pathRewrite` is an
object literal; its properties are kept in source order as key/value pairs. -/
structure ProxyRule where
  context : String
  target : String
  changeOrigin : Bool
  pathRewrite : List (String × String)
  deriving DecidableEq, Repr

/-- The single rule of the table (lines 5-9):

    "/api/v1": {
      target: "http://localhost:8000",
      changeOrigin: true,
      pathRewrite: { "^/api/v1": "/api/v1" },
    }
-/
def apiV1Rule : ProxyRule :=
  ProxyRule.mk "/api/v1" "http://localhost:8000" true [("^/api/v1", "/api/v1")]

/-- The object literal `devServer.proxy` (lines 4-10), one rule. -/
def proxy : List ProxyRule := [apiV1Rule]

/-! ## The dev-server's reading of the proxy table

The proxy engine is not part of the repository: the file only configures it.
The definitions of this section follow the description the specification
gives of that engine. -/

/-- An incoming request, as far as the proxy looks at it: the request path and
the `Host` header it arrived with. -/
structure Request where
  path : String
  host : String
  deriving DecidableEq, Repr

/-- A request as the proxy sends it upstream: the origin it is sent to, the
path it asks for there, and the `Host` header it carries. -/
structure Forwarded where
  origin : String
  path : String
  host : String
  deriving DecidableEq, Repr

/-- The URL a forwarded request addresses: the origin followed by the path. -/
def Forwarded.url (f : Forwarded) : String := f.origin ++ f.path

/-- A compiled key of `pathRewrite`: whether the expression is anchored at the
start of the path, and the literal text it matches. -/
structure RewritePattern where
  anchored : Bool
  literal : List Char
  deriving DecidableEq, Repr

/-- Characters with a special meaning in a regular expression. -/
def regexSpecialChars : List Char :=
  ['\\', '^', '$', '.', '|', '?', '*', '+', '(', ')', '[', ']', '\x7b', '\x7d']

/-- Modelled from the spec: the proxy engine's compilation of a `pathRewrite`
key into a regular expression is missing from the sources.  The fragment
modelled is an optional leading `^` followed by ordinary characters; a key
with any other special character is outside the fragment (`none`). -/
def compilePattern (key : String) : Option RewritePattern :=
  match key.data with
  | '^' :: rest =>
      if rest.all (fun c => !regexSpecialChars.contains c) then some (RewritePattern.mk true rest) else none
  | cs =>
      if cs.all (fun c => !regexSpecialChars.contains c) then some (RewritePattern.mk false cs) else none

/-- Replace the leftmost occurrence of `literal` in `path` by `value`; `none`
when `literal` does not occur. -/
def replaceLeftmost (literal value : List Char) : List Char → Option (List Char)
  | [] => if literal.isPrefixOf [] then some value else none
  | c :: cs =>
      if literal.isPrefixOf (c :: cs) then some (value ++ (c :: cs).drop literal.length)
      else (replaceLeftmost literal value cs).map (fun r => c :: r)

/-- Modelled from the spec: the replacement of the first match of a compiled
pattern in a path ("replace a match of the regular expression, anchored at the
start of the path, by the literal") is missing from the sources.  `none` when
the pattern does not match the path. -/
def replaceMatch (p : RewritePattern) (value path : List Char) : Option (List Char) :=
  if p.anchored then
    if p.literal.isPrefixOf path then some (value ++ path.drop p.literal.length) else none
  else
    replaceLeftmost p.literal value path

/-- Modelled from the spec: the proxy engine's path-rewrite transform is
missing from the sources.  The rules are tried in order; the first whose
expression matches the path rewrites it, and a path no rule matches is left as
it is.  The outer `none` marks a rule outside the modelled fragment (a key
that does not compile, or a replacement text with a `$` reference). -/
def rewritePath : List (String × String) → String → Option String
  | [], path => some path
  | (key, value) :: rules, path =>
      match compilePattern key with
      | none => none
      | some p =>
          if value.data.contains '$' then none
          else
            match replaceMatch p value.data path.data with
            | some r => some (String.mk r)
            | none => rewritePath rules path

/-- The path-rewrite transform of the configured rule, `pathRewrite`
of `apiV1Rule`. -/
def rewrite (path : String) : Option String :=
  rewritePath apiV1Rule.pathRewrite path

/-- Drop a URL's scheme, up to and including the first `://`. -/
def dropScheme : List Char → List Char
  | ':' :: '/' :: '/' :: rest => rest
  | _ :: rest => dropScheme rest
  | [] => []

/-- Modelled from the spec: the host (hostname and port) of a target origin,
the text between the scheme and the first following `/`; the URL parser of
the proxy engine is missing from the sources. -/
def targetHost (target : String) : String :=
  String.mk ((dropScheme target.data).takeWhile (fun c => c != '/'))

/-- Modelled from the spec: rule selection of the proxy engine is missing from
the sources.  "The external dev-server checks whether [the path] starts with
the configured prefix": the first rule of the table whose prefix starts the
request path. -/
def matchRule (table : List ProxyRule) (path : String) : Option ProxyRule :=
  table.find? (fun r => r.context.data.isPrefixOf path.data)

/-- Modelled from the spec: forwarding by the proxy engine is missing from the
sources.  "It forwards the request to the configured target origin, applying
the path-rewrite transform and optionally substituting the `Host` header with
the target's host." -/
def forwardWith (rule : ProxyRule) (req : Request) : Option Forwarded :=
  match rewritePath rule.pathRewrite req.path with
  | none => none
  | some path =>
      some (Forwarded.mk rule.target path (if rule.changeOrigin then targetHost rule.target else req.host))

/-- Modelled from the spec: the proxy engine as a whole is missing from the
sources.  A request whose path no rule matches is not forwarded (`none`); one
that a rule matches is forwarded with that rule. -/
def proxyRequest (table : List ProxyRule) (req : Request) : Option Forwarded :=
  match matchRule table req.path with
  | none => none
  | some rule => forwardWith rule req

/-! ## Supporting lemmas -/

/-- Membership of a value in the ignore list, as `includes` decides it, is
equality with one of the two string literals. -/
theorem includes_ignoreErrors_iff (v : JSValue) :
    includes ignoreErrors v = true ↔
      v = JSValue.string "ResizeObserver loop limit exceeded" ∨
      v = JSValue.string "ResizeObserver loop completed with undelivered notifications." := by
  cases v <;> simp [includes, ignoreErrors, sameValueZero]

/-- The callback answers `false` exactly on the messages of the ignore list. -/
theorem runtimeErrors_eq_false_iff (error : JSError) :
    runtimeErrors error = JSValue.boolean false ↔ includes ignoreErrors error.message = true := by
  unfold runtimeErrors
  by_cases h : includes ignoreErrors error.message = true <;> simp [h]

/-- A list of characters starts a string's characters exactly when the string
is that list followed by some rest. -/
theorem isPrefixOf_data_iff (pre path : String) :
    pre.data.isPrefixOf path.data = true ↔ ∃ rest : String, path = pre ++ rest := by
  rw [List.isPrefixOf_iff_prefix]
  constructor
  · rintro ⟨t, ht⟩
    exact ⟨String.mk t, String.ext (by simp [String.data_append, ht])⟩
  · rintro ⟨rest, rfl⟩
    exact ⟨rest.data, by simp [String.data_append]⟩

/-- Replacing a prefix by itself gives the list back. -/
theorem append_drop_of_isPrefixOf (pre l : List Char) (h : pre.isPrefixOf l = true) :
    pre ++ l.drop pre.length = l := by
  rw [List.isPrefixOf_iff_prefix] at h
  exact List.prefix_iff_eq_append.mp h

/-- The configured `pathRewrite` table leaves every path as it is. -/
theorem rewritePath_apiV1Rule (path : String) :
    rewritePath apiV1Rule.pathRewrite path = some path := by
  have hc : compilePattern "^/api/v1" = some (RewritePattern.mk true "/api/v1".data) := by decide
  have hv : ("/api/v1" : String).data.contains '$' = false := by decide
  simp only [apiV1Rule, rewritePath, hc, hv, replaceMatch]
  by_cases h : ("/api/v1" : String).data.isPrefixOf path.data = true
  · have hd := append_drop_of_isPrefixOf _ _ h
    obtain ⟨l⟩ := path
    simp only [h, if_true]
    exact congrArg some (congrArg String.mk hd)
  · simp [h]

/-- Every request is forwarded by the configured rule, to the target origin,
with its path unchanged and the target's host in the `Host` header. -/
theorem forwardWith_apiV1Rule (req : Request) :
    forwardWith apiV1Rule req =
      some (Forwarded.mk "http://localhost:8000" req.path "localhost:8000") := by
  have hh : targetHost "http://localhost:8000" = "localhost:8000" := by decide
  simp only [forwardWith, rewritePath_apiV1Rule]
  simp [apiV1Rule, hh]

/-- The table selects its rule exactly for the paths that start with the
rule's prefix. -/
theorem matchRule_proxy (path : String) :
    matchRule proxy path =
      if ("/api/v1" : String).data.isPrefixOf path.data then some apiV1Rule else none := by
  simp only [matchRule, proxy, List.find?, apiV1Rule]
  cases ("/api/v1" : String).data.isPrefixOf path.data <;> rfl

/-! ## The overlay filter: claims -/

/-- C1: for every error object whose message is exactly
"ResizeObserver loop limit exceeded" or exactly
"ResizeObserver loop completed with undelivered notifications.", the overlay
filter `runtimeErrors` returns `false`. -/
theorem runtimeErrors_ignored_message (error : JSError)
    (h : error.message = JSValue.string "ResizeObserver loop limit exceeded" ∨
      error.message =
        JSValue.string "ResizeObserver loop completed with undelivered notifications.") :
    runtimeErrors error = JSValue.boolean false :=
  (runtimeErrors_eq_false_iff error).mpr ((includes_ignoreErrors_iff error.message).mpr h)

/-- C1 at a concrete error: a `ResizeObserver` notification error with a name
and a stack. -/
theorem runtimeErrors_ignored_message_witness :
    runtimeErrors
        (JSError.mk
          (JSValue.string "ResizeObserver loop completed with undelivered notifications.")
          (JSValue.string "Error") (JSValue.string "at ResizeObserver") []) =
      JSValue.boolean false :=
  runtimeErrors_ignored_message _ (Or.inr rfl)

/-- C2 (the code at the claim's own example): for the message
"TypeError: x is not a function", which is not on the ignore list, the filter
does not return `true`: the call falls off the end of the function body, its
value is `undefined`, and `undefined` is falsy. -/
theorem runtimeErrors_typeError_undefined :
    runtimeErrors
        (JSError.mk (JSValue.string "TypeError: x is not a function")
          (JSValue.string "TypeError") JSValue.undefined []) = JSValue.undefined ∧
      runtimeErrors
        (JSError.mk (JSValue.string "TypeError: x is not a function")
          (JSValue.string "TypeError") JSValue.undefined []) ≠ JSValue.boolean true ∧
      toBoolean
        (runtimeErrors
          (JSError.mk (JSValue.string "TypeError: x is not a function")
            (JSValue.string "TypeError") JSValue.undefined [])) = false := by
  decide

/-- C3: suppression requires exact string equality.  For every error, the
filter returns `false` only if the message is one of the two strings of
`ignoreErrors`; a message that drops the final period, prepends "Uncaught ",
truncates, extends or changes the case of an ignored string, and a message
that is not a string at all, does not make the filter return `false`. -/
theorem runtimeErrors_false_only_exact :
    (∀ error : JSError, runtimeErrors error = JSValue.boolean false →
      error.message = JSValue.string "ResizeObserver loop limit exceeded" ∨
      error.message =
        JSValue.string "ResizeObserver loop completed with undelivered notifications.") ∧
    (∀ name stack extra, runtimeErrors
      (JSError.mk
        (JSValue.string "ResizeObserver loop completed with undelivered notifications")
        name stack extra) ≠ JSValue.boolean false) ∧
    (∀ name stack extra, runtimeErrors
      (JSError.mk (JSValue.string "Uncaught ResizeObserver loop limit exceeded")
        name stack extra) ≠ JSValue.boolean false) ∧
    (∀ name stack extra, runtimeErrors
      (JSError.mk (JSValue.string "ResizeObserver loop limit") name stack extra) ≠
        JSValue.boolean false) ∧
    (∀ name stack extra, runtimeErrors
      (JSError.mk (JSValue.string "ResizeObserver loop limit exceeded.") name stack extra) ≠
        JSValue.boolean false) ∧
    (∀ name stack extra, runtimeErrors
      (JSError.mk (JSValue.string "resizeobserver loop limit exceeded") name stack extra) ≠
        JSValue.boolean false) ∧
    (∀ name stack extra, runtimeErrors (JSError.mk JSValue.undefined name stack extra) ≠
        JSValue.boolean false) := by
  have key : ∀ error : JSError, runtimeErrors error = JSValue.boolean false →
      error.message = JSValue.string "ResizeObserver loop limit exceeded" ∨
      error.message =
        JSValue.string "ResizeObserver loop completed with undelivered notifications." :=
    fun error h => (includes_ignoreErrors_iff error.message).mp
      ((runtimeErrors_eq_false_iff error).mp h)
  refine ⟨key, ?_, ?_, ?_, ?_, ?_, ?_⟩ <;>
    · intro name stack extra h
      have hm := key _ h
      revert hm
      simp

/-- C3 at a concrete error: the filter returns `false` on it, and its message
is the first ignored string. -/
theorem runtimeErrors_false_only_exact_witness :
    runtimeErrors
        (JSError.mk (JSValue.string "ResizeObserver loop limit exceeded")
          JSValue.undefined JSValue.undefined []) = JSValue.boolean false ∧
      ((JSValue.string "ResizeObserver loop limit exceeded" =
          JSValue.string "ResizeObserver loop limit exceeded") ∨
        (JSValue.string "ResizeObserver loop limit exceeded" =
          JSValue.string "ResizeObserver loop completed with undelivered notifications.")) :=
  ⟨by decide,
    runtimeErrors_false_only_exact.1
      (JSError.mk (JSValue.string "ResizeObserver loop limit exceeded")
        JSValue.undefined JSValue.undefined []) (by decide)⟩

/-- C8: the filter never returns `true`.  For every error object its result is
either `false`, when the message is one of the two ignored strings, or
`undefined`, when it is not; so no input produces a truthy result. -/
theorem runtimeErrors_never_true (error : JSError) :
    ((runtimeErrors error = JSValue.boolean false ∧
        (error.message = JSValue.string "ResizeObserver loop limit exceeded" ∨
          error.message =
            JSValue.string "ResizeObserver loop completed with undelivered notifications.")) ∨
      (runtimeErrors error = JSValue.undefined ∧
        ¬ (error.message = JSValue.string "ResizeObserver loop limit exceeded" ∨
          error.message =
            JSValue.string
              "ResizeObserver loop completed with undelivered notifications."))) ∧
    runtimeErrors error ≠ JSValue.boolean true ∧
    toBoolean (runtimeErrors error) = false := by
  rw [← includes_ignoreErrors_iff]
  unfold runtimeErrors
  by_cases h : includes ignoreErrors error.message = true <;> simp [h, toBoolean]

/-- C9: the filter's decision depends only on the `message` field.  Two error
objects with equal messages get the same result whatever their other fields,
and whatever calls were made before: the result of the last call of a
sequence of calls is the same after any two histories. -/
theorem runtimeErrors_depends_only_on_message (before₁ before₂ : List JSError)
    (e₁ e₂ : JSError) (h : e₁.message = e₂.message) :
    runtimeErrors e₁ = runtimeErrors e₂ ∧
    (runtimeErrorsCalls (before₁ ++ [e₁])).getLast? =
      (runtimeErrorsCalls (before₂ ++ [e₂])).getLast? := by
  have hr : runtimeErrors e₁ = runtimeErrors e₂ := by
    unfold runtimeErrors
    rw [h]
  refine ⟨hr, ?_⟩
  simp [runtimeErrorsCalls, hr]

/-- C9 at two concrete errors that share a message and differ in name, stack
and extra fields, called after different histories. -/
theorem runtimeErrors_depends_only_on_message_witness :
    runtimeErrors
        (JSError.mk (JSValue.string "ResizeObserver loop limit exceeded")
          (JSValue.string "Error") (JSValue.string "at a.js:1") []) =
      runtimeErrors
        (JSError.mk (JSValue.string "ResizeObserver loop limit exceeded")
          (JSValue.string "DOMException") JSValue.undefined
          [("code", JSValue.number 20)]) ∧
    (runtimeErrorsCalls
        ([] ++ [JSError.mk (JSValue.string "ResizeObserver loop limit exceeded")
          (JSValue.string "Error") (JSValue.string "at a.js:1") []])).getLast? =
      (runtimeErrorsCalls
        ([JSError.mk (JSValue.string "boom") JSValue.null JSValue.null []] ++
          [JSError.mk (JSValue.string "ResizeObserver loop limit exceeded")
            (JSValue.string "DOMException") JSValue.undefined
            [("code", JSValue.number 20)]])).getLast? :=
  runtimeErrors_depends_only_on_message [] [JSError.mk (JSValue.string "boom") JSValue.null JSValue.null []]
    _ _ rfl

/-! ## The proxy rule: claims -/

/-- C4: for every request whose path begins with "/api/v1", the single
configured proxy rule matches it and the request is forwarded to origin
"http://localhost:8000" with its path unchanged, so the upstream URL is
"http://localhost:8000" followed by the request path; a path that does not
begin with "/api/v1" matches no rule and the request is not forwarded. -/
theorem proxy_forwards_api_v1 (req : Request) :
    ((∃ rest : String, req.path = "/api/v1" ++ rest) →
      matchRule proxy req.path = some apiV1Rule ∧
      ∃ f : Forwarded, proxyRequest proxy req = some f ∧
        f.origin = "http://localhost:8000" ∧ f.path = req.path ∧
        f.url = "http://localhost:8000" ++ req.path) ∧
    ((¬ ∃ rest : String, req.path = "/api/v1" ++ rest) →
      matchRule proxy req.path = none ∧ proxyRequest proxy req = none) := by
  constructor
  · intro h
    have hp := (isPrefixOf_data_iff "/api/v1" req.path).mpr h
    have hm : matchRule proxy req.path = some apiV1Rule := by
      rw [matchRule_proxy, if_pos hp]
    refine ⟨hm, Forwarded.mk "http://localhost:8000" req.path "localhost:8000", ?_, rfl, rfl, rfl⟩
    simp only [proxyRequest, hm, forwardWith_apiV1Rule]
  · intro h
    have hp : ¬ (("/api/v1" : String).data.isPrefixOf req.path.data = true) :=
      fun hp => h ((isPrefixOf_data_iff "/api/v1" req.path).mp hp)
    have hm : matchRule proxy req.path = none := by
      rw [matchRule_proxy, if_neg hp]
    exact ⟨hm, by simp only [proxyRequest, hm]⟩

/-- C4 at two concrete requests: "/api/v1/users?page=2" is forwarded to
"http://localhost:8000/api/v1/users?page=2", and "/static/app.js" is not
forwarded. -/
theorem proxy_forwards_api_v1_witness :
    (matchRule proxy "/api/v1/users?page=2" = some apiV1Rule ∧
      ∃ f : Forwarded,
        proxyRequest proxy (Request.mk "/api/v1/users?page=2" "localhost:8080") = some f ∧
        f.origin = "http://localhost:8000" ∧ f.path = "/api/v1/users?page=2" ∧
        f.url = "http://localhost:8000" ++ "/api/v1/users?page=2") ∧
    (matchRule proxy "/static/app.js" = none ∧
      proxyRequest proxy (Request.mk "/static/app.js" "localhost:8080") = none) :=
  ⟨(proxy_forwards_api_v1 (Request.mk "/api/v1/users?page=2" "localhost:8080")).1
      ⟨"/users?page=2", by decide⟩,
    (proxy_forwards_api_v1 (Request.mk "/static/app.js" "localhost:8080")).2
      (fun h => by
        have hp := (isPrefixOf_data_iff "/api/v1" "/static/app.js").mpr h
        revert hp
        decide)⟩

/-- C5: the path-rewrite transform configured as
`pathRewrite: { "^/api/v1": "/api/v1" }` is the identity on request paths: for
every path, whether or not it begins with "/api/v1", the transform yields a
result and the result is the path itself. -/
theorem rewrite_identity (path : String) : rewrite path = some path :=
  rewritePath_apiV1Rule path

/-- C6: the path-rewrite transform of the proxy rule is idempotent: for every
request path the transform yields a result, and applying the transform to
that result gives the same result again. -/
theorem rewrite_idempotent (path : String) :
    (∃ once : String, rewrite path = some once ∧ rewrite once = some once) ∧
    (rewrite path).bind rewrite = rewrite path := by
  have h : rewrite path = some path := rewritePath_apiV1Rule path
  exact ⟨⟨path, h, h⟩, by rw [h, Option.some_bind, h]⟩

/-- C7: the rule sets `changeOrigin` to `true`, and every request forwarded by
the rule carries the `Host` header "localhost:8000", the host of the target
"http://localhost:8000", whatever `Host` header the incoming request had. -/
theorem forwarded_host_is_target_host (req : Request) :
    apiV1Rule.changeOrigin = true ∧
    targetHost apiV1Rule.target = "localhost:8000" ∧
    (∃ f : Forwarded, forwardWith apiV1Rule req = some f ∧ f.host = "localhost:8000") ∧
    (∀ f : Forwarded, proxyRequest proxy req = some f → f.host = "localhost:8000") := by
  refine ⟨rfl, by decide, ⟨_, forwardWith_apiV1Rule req, rfl⟩, ?_⟩
  intro f hf
  rw [proxyRequest, matchRule_proxy] at hf
  by_cases hp : ("/api/v1" : String).data.isPrefixOf req.path.data = true
  · rw [if_pos hp] at hf
    simp only [forwardWith_apiV1Rule] at hf
    cases hf
    rfl
  · rw [if_neg hp] at hf
    cases hf

/-- C7 at a concrete request that arrives with the `Host` header
"localhost:8080": it leaves with "localhost:8000". -/
theorem forwarded_host_is_target_host_witness :
    proxyRequest proxy (Request.mk "/api/v1/login" "localhost:8080") =
      some (Forwarded.mk "http://localhost:8000" "/api/v1/login" "localhost:8000") ∧
    (Forwarded.mk "http://localhost:8000" "/api/v1/login" "localhost:8000").host =
      "localhost:8000" :=
  ⟨by decide,
    (forwarded_host_is_target_host (Request.mk "/api/v1/login" "localhost:8080")).2.2.2
      (Forwarded.mk "http://localhost:8000" "/api/v1/login" "localhost:8000") (by decide)⟩

end ZhiQing
